import Mathlib

/-!
Verification of the debug-session orchestrator of the `debug-ctr` tool
(command `debug`, file `cmd/debug.go`).

The orchestrator issues a linear sequence of calls against a container
runtime (Docker) client: pull image, create container, start container,
inspect container, wait for removal, remove container.  We embed it
shallowly: the runtime client is an environment `Docker` of result
functions (one per primitive, mirroring the methods of `client.Client`
that the code uses), and every modelled function returns its Go result
together with the list of runtime calls it issued, in order
(`List Event`).  A Go `panic` (which terminates the process instead of
returning an error to the caller) is modelled by the distinguished
outcome `Outcome.panicked`, as opposed to `Outcome.error`, which models
an ordinary `return err`.

The `log.Printf` diagnostics that carry session data (the resolved
entrypoint/cmd, the started container id, and the suggested `docker
exec` hint) are recorded as events as well, carrying the logged data;
the constant banner lines and the Go format-string rendering are not
re-modelled.  The darwin-only terminal-tab convenience at the end of
`RunE` (an `osascript` invocation, not a runtime operation) is outside
the modelled behaviour, as is the byte stream returned by `ImagePull`
(`io.Copy` to stdout): a pull that fails either at the API call or
while streaming is a single failing `imagePull` result.
-/

namespace DebugCtr

/-- Error values carried by failing runtime operations (Go `error`). -/
abbrev Err := String

/-- The subset of Docker's `container.Config` that `cmd/debug.go` sets or
copies: image, user, env, entrypoint, cmd, working dir, labels. -/
structure ContainerConfig where
  image : String
  user : String := ""
  env : List String := []
  entrypoint : List String := []
  cmd : List String := []
  workingDir : String := ""
  labels : List (String × String) := []
deriving DecidableEq

/-- The subset of Docker's `container.HostConfig` that `cmd/debug.go` sets:
auto-remove, privileged, pid mode, binds. -/
structure HostConfig where
  autoRemove : Bool := false
  privileged : Bool := false
  pidMode : String := ""
  binds : List String := []
deriving DecidableEq

/-- The part of a `ContainerInspect` answer that `cmd/debug.go` reads:
the image id (`inspect.Image`) and the container config
(`inspect.Config`). -/
structure Inspect where
  image : String
  config : ContainerConfig
deriving DecidableEq

/-- Outcome of `cli.ContainerWait`: the Go code `select`s over the error
channel and the status channel.  `fromErrCh e` is a message on the error
channel (`e = none` models a nil error), `fromStatusCh` a message on the
status channel. -/
inductive WaitMsg where
  | fromErrCh (e : Option Err)
  | fromStatusCh
deriving DecidableEq

/-- One runtime call (or data-carrying log line) issued by the program,
with the arguments the program passed. -/
inductive Event where
  | pull (image platform : String)
  | create (cfg : ContainerConfig) (host : Option HostConfig) (name : String)
  | start (id : String)
  | inspect (id : String)
  | wait (id : String) (condition : String)
  | remove (id : String) (force : Bool)
  | logEntrypoint (entrypoint : List String)
  | logCmd (cmd : List String)
  | logStarting (id : String)
  | logHint (cmd : String)
deriving DecidableEq

/-- Result of running a modelled Go function: a normal return value, an
error returned to the caller (`return err`), or a `panic` that
terminates the whole process. -/
inductive Outcome (α : Type) where
  | ok (a : α)
  | error (e : Err)
  | panicked (e : Err)
deriving DecidableEq

/-- The runtime-client environment: for each primitive the result the
remote runtime would give for those arguments during this session.
`goarch` is Go's `runtime.GOARCH`. -/
structure Docker where
  goarch : String
  imagePull : String → Except Err Unit
  containerCreate : ContainerConfig → Option HostConfig → String → Except Err String
  containerStart : String → Except Err Unit
  containerInspect : String → Except Err Inspect
  containerWait : String → String → WaitMsg
  containerRemove : String → Bool → Except Err Unit

/-- The hardcoded bridging helper image (`addMountImage` constant). -/
def addMountImage : String := "justincormack/addmount:latest"

/-- Go's `strings.Replace` restricted to a single-character pattern and
replacement, on a list of characters: replaces the first `n`
occurrences of `old` by `new`; a negative `n` means no limit. -/
def goReplaceChar : List Char → Char → Char → Int → List Char
  | [], _, _, _ => []
  | c :: cs, old, new, n =>
    if n == 0 then c :: cs
    else if c == old then new :: goReplaceChar cs old new (n - 1)
    else c :: goReplaceChar cs old new n

/-- Go's `strings.Replace(s, old, new, n)` for one-character `old` and
`new`, on `String`. -/
def goReplace (s : String) (old new : Char) (n : Int) : String :=
  ⟨goReplaceChar s.data old new n⟩

/-- The volume name computed in `createCopyContainer`:
`strings.Replace(strings.Replace(debugImage, ":", "_", 1), "/", "_", -1)`. -/
def volumeNameOf (debugImage : String) : String :=
  goReplace (goReplace debugImage ':' '_' 1) '/' '_' (-1)

/-- The tool-volume identifier: `fmt.Sprintf("debug-ctr-%s", volumeName)`. -/
def volumeOf (debugImage : String) : String :=
  "debug-ctr-" ++ volumeNameOf debugImage

/-- The volume-name derivation as the spec sentence words it: `r` with
ALL of its colons and its FIRST path-separator replaced by underscores,
prefixed by the fixed literal.  (Definition follows the spec's words,
for comparison with `volumeOf`, which follows the source.) -/
def specClaimVolumeOf (r : String) : String :=
  "debug-ctr-" ++ goReplace (goReplace r ':' '_' (-1)) '/' '_' 1

/-- One-pass sanitizer: replaces the first colon and every slash by an
underscore; `colonDone` records whether the one colon replacement has
already happened.  Used as an independent characterization of
`volumeNameOf`. -/
def sanitizeChars : List Char → Bool → List Char
  | [], _ => []
  | c :: cs, colonDone =>
    if c == ':' && !colonDone then '_' :: sanitizeChars cs true
    else if c == '/' then '_' :: sanitizeChars cs colonDone
    else c :: sanitizeChars cs colonDone

/-- `pullImage(ctx, image)`: `cli.ImagePull` for platform
`"linux/" + runtime.GOARCH`, streaming progress to stdout. -/
def pullImage (d : Docker) (image : String) : Except Err Unit × List Event :=
  (d.imagePull image, [Event.pull image ("linux/" ++ d.goarch)])

/-- Config of the toolkit container created at the top of
`addMountToTargetContainer`: the debug image with a keep-alive
entrypoint. -/
def toolkitConfig (debugImage : String) : ContainerConfig :=
  { image := debugImage, entrypoint := ["/bin/sh", "-c", "tail -f /dev/null"] }

/-- Config of the bridging (add-mount) container: the helper image,
invoked with the four positional arguments
`[toolkitId, "/bin", targetContainer, "/bin"]`. -/
def bridgeConfig (toolkitId targetContainer : String) : ContainerConfig :=
  { image := addMountImage, cmd := [toolkitId, "/bin", targetContainer, "/bin"] }

/-- Host config of the bridging container: auto-remove, privileged, host
pid namespace, docker-socket bind mount. -/
def bridgeHostConfig : HostConfig :=
  { autoRemove := true, privileged := true, pidMode := "host",
    binds := ["/var/run/docker.sock:/var/run/docker.sock"] }

/-- `addMountToTargetContainer(ctx, debugImage, targetContainer)`:
create and start the toolkit container, pull the helper image, create
and start the bridging container, wait for its removal (a non-nil error
on the wait channel panics), then force-remove the toolkit container. -/
def addMountToTargetContainer (d : Docker) (debugImage targetContainer : String) :
    Outcome Unit × List Event :=
  let e1 := Event.create (toolkitConfig debugImage) none ""
  match d.containerCreate (toolkitConfig debugImage) none "" with
  | .error e => (.error e, [e1])
  | .ok toolkitId =>
    let e2 := Event.start toolkitId
    match d.containerStart toolkitId with
    | .error e => (.error e, [e1, e2])
    | .ok _ =>
      let pr := pullImage d addMountImage
      match pr.1 with
      | .error e => (.error e, [e1, e2] ++ pr.2)
      | .ok _ =>
        let e4 := Event.create (bridgeConfig toolkitId targetContainer) (some bridgeHostConfig) ""
        match d.containerCreate (bridgeConfig toolkitId targetContainer) (some bridgeHostConfig) "" with
        | .error e => (.error e, [e1, e2] ++ pr.2 ++ [e4])
        | .ok bridgeId =>
          let e5 := Event.start bridgeId
          match d.containerStart bridgeId with
          | .error e => (.error e, [e1, e2] ++ pr.2 ++ [e4, e5])
          | .ok _ =>
            let e6 := Event.wait bridgeId "removed"
            match d.containerWait bridgeId "removed" with
            | .fromErrCh (some e) => (.panicked e, [e1, e2] ++ pr.2 ++ [e4, e5, e6])
            | _ =>
              let e7 := Event.remove toolkitId true
              match d.containerRemove toolkitId true with
              | .error e => (.error e, [e1, e2] ++ pr.2 ++ [e4, e5, e6, e7])
              | .ok _ => (.ok (), [e1, e2] ++ pr.2 ++ [e4, e5, e6, e7])

/-- Config of the throwaway container that materializes the debug
image's `/bin` into the tool volume. -/
def toolVolumeContainerConfig (debugImage : String) : ContainerConfig :=
  { image := debugImage }

/-- Host config of that throwaway container: auto-remove, tool volume
bound at `/bin`. -/
def toolVolumeHostConfig (debugImage : String) : HostConfig :=
  { autoRemove := true, binds := [volumeOf debugImage ++ ":" ++ "/bin"] }

/-- Config of the copy container: the target's inspected image id,
user, env, working dir and labels, with entrypoint and cmd replaced
wholesale by the respective override list iff that list is non-empty
(the Go code tests `len(override) > 0`). -/
def copyConfig (insp : Inspect) (entryPointOverride cmdOverride : List String) :
    ContainerConfig :=
  { image := insp.image, user := insp.config.user, env := insp.config.env,
    entrypoint :=
      if entryPointOverride.length > 0 then entryPointOverride else insp.config.entrypoint,
    cmd := if cmdOverride.length > 0 then cmdOverride else insp.config.cmd,
    workingDir := insp.config.workingDir, labels := insp.config.labels }

/-- Host config of the copy container: the tool volume bound at
`/.debugger`. -/
def copyHostConfig (debugImage : String) : HostConfig :=
  { binds := [volumeOf debugImage ++ ":" ++ "/.debugger"] }

/-- `createCopyContainer(ctx, debugImage, targetContainer,
copyContainerName, entryPointOverride, cmdOverride)`: materialize the
tool volume, inspect the target, compute effective entrypoint/cmd
(override replaces the original iff its length is positive), create the
copy container under the requested name with the tool volume at
`/.debugger`, and start it. -/
def createCopyContainer (d : Docker) (debugImage targetContainer copyContainerName : String)
    (entryPointOverride cmdOverride : List String) : Outcome Unit × List Event :=
  let e1 := Event.create (toolVolumeContainerConfig debugImage)
    (some (toolVolumeHostConfig debugImage)) ""
  match d.containerCreate (toolVolumeContainerConfig debugImage)
      (some (toolVolumeHostConfig debugImage)) "" with
  | .error e => (.error e, [e1])
  | .ok volId =>
    let e2 := Event.start volId
    match d.containerStart volId with
    | .error e => (.error e, [e1, e2])
    | .ok _ =>
      let e3 := Event.inspect targetContainer
      match d.containerInspect targetContainer with
      | .error e => (.error e, [e1, e2, e3])
      | .ok insp =>
        let cfg2 := copyConfig insp entryPointOverride cmdOverride
        let host2 := copyHostConfig debugImage
        let e4 := Event.logEntrypoint cfg2.entrypoint
        let e5 := Event.logCmd cfg2.cmd
        let e6 := Event.create cfg2 (some host2) copyContainerName
        match d.containerCreate cfg2 (some host2) copyContainerName with
        | .error e => (.error e, [e1, e2, e3, e4, e5, e6])
        | .ok copyId =>
          let e7 := Event.logStarting copyId
          let e8 := Event.start copyId
          match d.containerStart copyId with
          | .error e => (.error e, [e1, e2, e3, e4, e5, e6, e7, e8])
          | .ok _ => (.ok (), [e1, e2, e3, e4, e5, e6, e7, e8])

/-- The exec hint printed after the live-mount path:
`docker exec -it <target> /bin/sh`. -/
def liveHint (debugContainer : String) : String :=
  "docker exec -it " ++ debugContainer ++ " /bin/sh"

/-- The exec hint printed after the copy-container path: a shell in the
copy with PATH augmented by `/.debugger`. -/
def copyHint (copyContainerName : String) : String :=
  "docker exec -it " ++ copyContainerName ++
    " /.debugger/sh -c \"PATH=\\$PATH:/.debugger /.debugger/sh\""

/-- The body of `RunE`: verify the target exists, pull the debug image,
then run the copy-container strategy when a copy name was supplied and
the live-mount strategy otherwise, and report the exec hint.  The
returned string is the `dockerExecCmd` the program logs. -/
def runE (d : Docker) (debugImage targetContainer copyContainerName : String)
    (entryPointOverride cmdOverride : List String) : Outcome String × List Event :=
  let e1 := Event.inspect targetContainer
  match d.containerInspect targetContainer with
  | .error e => (.error e, [e1])
  | .ok _ =>
    let pr := pullImage d debugImage
    match pr.1 with
    | .error e => (.error e, [e1] ++ pr.2)
    | .ok _ =>
      if copyContainerName = "" then
        match addMountToTargetContainer d debugImage targetContainer with
        | (.ok _, evs) =>
          let c := liveHint targetContainer
          (.ok c, [e1] ++ pr.2 ++ evs ++ [Event.logHint c])
        | (.error e, evs) => (.error e, [e1] ++ pr.2 ++ evs)
        | (.panicked e, evs) => (.panicked e, [e1] ++ pr.2 ++ evs)
      else
        match createCopyContainer d debugImage targetContainer copyContainerName
            entryPointOverride cmdOverride with
        | (.ok _, evs) =>
          let c := copyHint copyContainerName
          (.ok c, [e1] ++ pr.2 ++ evs ++ [Event.logHint c])
        | (.error e, evs) => (.error e, [e1] ++ pr.2 ++ evs)
        | (.panicked e, evs) => (.panicked e, [e1] ++ pr.2 ++ evs)

/-- Strategy result combined with the session prologue (target
inspection, debug-image pull) and the hint report, used to state that
`runE` is exactly prologue-then-strategy-then-report on each branch. -/
def sessionWrap (d : Docker) (debugImage targetContainer hint : String)
    (r : Outcome Unit × List Event) : Outcome String × List Event :=
  match r with
  | (.ok _, evs) =>
    (.ok hint, [Event.inspect targetContainer, Event.pull debugImage ("linux/" ++ d.goarch)]
      ++ evs ++ [Event.logHint hint])
  | (.error e, evs) =>
    (.error e, [Event.inspect targetContainer, Event.pull debugImage ("linux/" ++ d.goarch)] ++ evs)
  | (.panicked e, evs) =>
    (.panicked e, [Event.inspect targetContainer, Event.pull debugImage ("linux/" ++ d.goarch)] ++ evs)

/-- Number of force-removals of container `id` in a trace. -/
def removeCount (id : String) : List Event → Nat
  | [] => 0
  | e :: rest => (if e = Event.remove id true then 1 else 0) + removeCount id rest

/-- A target-container inspection answer used by concrete test
environments. -/
def inspHappy : Inspect :=
  { image := "sha256-distroless-id",
    config := { image := "my-distroless-image", user := "app", env := ["A=1"],
                entrypoint := ["/app/server"], cmd := ["--port", "8080"],
                workingDir := "/app", labels := [("k", "v")] } }

/-- Environment in which every runtime operation succeeds; every create
returns the id `c1` and the wait answers on the status channel. -/
def dHappy : Docker :=
  { goarch := "amd64",
    imagePull := fun _ => .ok (),
    containerCreate := fun _ _ _ => .ok "c1",
    containerStart := fun _ => .ok (),
    containerInspect := fun _ => .ok inspHappy,
    containerWait := fun _ _ => .fromStatusCh,
    containerRemove := fun _ _ => .ok () }

/-- Environment identical to `dHappy` except that pulling the bridging
helper image fails. -/
def dPullFail : Docker :=
  { dHappy with
    imagePull := fun img => if img = addMountImage then .error "helper pull failed" else .ok () }

/-- Environment identical to `dHappy` except that inspecting any
container fails with a not-found error. -/
def dMissing : Docker :=
  { dHappy with
    containerInspect := fun _ => .error "Error: No such container: my-distroless" }

/-- Environment identical to `dHappy` except that the wait channel
surfaces an error. -/
def dWaitErr : Docker :=
  { dHappy with containerWait := fun _ _ => .fromErrCh (some "wait channel error") }

theorem goReplaceChar_zero (l : List Char) (o n : Char) : goReplaceChar l o n 0 = l := by
  cases l <;> simp [goReplaceChar]

theorem sanitize_true (l : List Char) : ∀ m : Int, m < 0 →
    goReplaceChar l '/' '_' m = sanitizeChars l true := by
  induction l with
  | nil => intro m hm; simp [goReplaceChar, sanitizeChars]
  | cons c cs ih =>
    intro m hm
    have hm0 : (m == 0) = false := by simpa using (by omega : ¬ m = 0)
    by_cases hc : c = '/'
    · subst hc
      simp +decide [goReplaceChar, sanitizeChars, hm0, ih (m - 1) (by omega)]
    · have h2 : (c == '/') = false := by simp [hc]
      simp [goReplaceChar, sanitizeChars, hm0, h2, ih m hm]

theorem sanitize_false (l : List Char) : ∀ m : Int, m < 0 →
    goReplaceChar (goReplaceChar l ':' '_' 1) '/' '_' m = sanitizeChars l false := by
  induction l with
  | nil => intro m hm; simp [goReplaceChar, sanitizeChars]
  | cons c cs ih =>
    intro m hm
    have hm0 : (m == 0) = false := by simpa using (by omega : ¬ m = 0)
    by_cases hcolon : c = ':'
    · subst hcolon
      simp +decide [goReplaceChar, sanitizeChars, hm0, goReplaceChar_zero,
        sanitize_true cs m hm]
    · by_cases hslash : c = '/'
      · subst hslash
        simp +decide [goReplaceChar, sanitizeChars, hm0, ih (m - 1) (by omega)]
      · have h1 : (c == ':') = false := by simp [hcolon]
        have h2 : (c == '/') = false := by simp [hslash]
        simp [goReplaceChar, sanitizeChars, hm0, h1, h2, ih m hm]

/-- Claim C2, counterexample: at the debug image reference
`docker.io/library/busybox:latest`, the volume name the spec describes
(all colons and the first slash replaced) differs from the one the code
computes (`createCopyContainer` replaces the first colon and all
slashes). -/
theorem volume_name_claim_counterexample :
    specClaimVolumeOf "docker.io/library/busybox:latest" ≠
      volumeOf "docker.io/library/busybox:latest" := by decide

/-- Claim C2 (amended): the derived tool-volume name is the fixed
literal `debug-ctr-` followed by the image reference with its FIRST
colon and ALL of its path-separators replaced by underscores, and the
derivation is a pure, deterministic function of the reference. -/
theorem volume_name_characterization (r : String) :
    volumeOf r = "debug-ctr-" ++ String.mk (sanitizeChars r.data false) ∧
      volumeOf r = volumeOf r := by
  refine ⟨?_, rfl⟩
  show "debug-ctr-" ++ volumeNameOf r = _
  have h := sanitize_false r.data (-1) (by norm_num)
  unfold volumeNameOf goReplace
  rw [h]

/-- Claim C3: when inspecting the target container fails, `RunE`
returns that error unchanged, and the only runtime operation issued in
the whole session is that single inspection — no image is pulled and no
container or volume operation is attempted. -/
theorem runE_target_missing (d : Docker) (dbg tgt copy : String) (ep cm : List String)
    (e : Err) (h : d.containerInspect tgt = .error e) :
    runE d dbg tgt copy ep cm = (.error e, [Event.inspect tgt]) := by
  simp [runE, h]

theorem runE_target_missing_witness :
    runE dMissing "busybox:1.28" "my-distroless" "" [] [] =
      (.error "Error: No such container: my-distroless", [Event.inspect "my-distroless"]) :=
  runE_target_missing dMissing "busybox:1.28" "my-distroless" "" [] []
    "Error: No such container: my-distroless" rfl

/-- Claim C6: on the live-mount path (empty copy name), the session's
outcome and its whole event trace — runtime operations and
data-carrying diagnostics alike — are identical for any two values of
the entrypoint and cmd override flags; those flags never influence that
path. -/
theorem runE_live_ignores_overrides (d : Docker) (dbg tgt : String)
    (ep1 cm1 ep2 cm2 : List String) :
    runE d dbg tgt "" ep1 cm1 = runE d dbg tgt "" ep2 cm2 := by
  cases h1 : d.containerInspect tgt <;> cases h2 : d.imagePull dbg <;>
    simp [runE, pullImage, h1, h2]

/-- Claim C7: in the live-mount strategy, when every step up to the
wait succeeds and the wait channel then surfaces a (non-nil) error, the
strategy panics with that underlying error — terminating the process —
instead of returning the error to its caller as every other failing
operation does. -/
theorem addMount_wait_error_panics (d : Docker) (dbg tgt tid bid : String) (e : Err)
    (h1 : d.containerCreate (toolkitConfig dbg) none "" = .ok tid)
    (h2 : d.containerStart tid = .ok ())
    (h3 : d.imagePull addMountImage = .ok ())
    (h4 : d.containerCreate (bridgeConfig tid tgt) (some bridgeHostConfig) "" = .ok bid)
    (h5 : d.containerStart bid = .ok ())
    (h6 : d.containerWait bid "removed" = .fromErrCh (some e)) :
    (addMountToTargetContainer d dbg tgt).1 = .panicked e := by
  simp [addMountToTargetContainer, pullImage, h1, h2, h3, h4, h5, h6]

theorem addMount_wait_error_panics_witness :
    (addMountToTargetContainer dWaitErr "busybox:1.28" "my-distroless").1 =
      .panicked "wait channel error" :=
  addMount_wait_error_panics dWaitErr "busybox:1.28" "my-distroless" "c1" "c1"
    "wait channel error" rfl rfl rfl rfl rfl rfl

/-- Claim C4: in the copy-container path, the copy container is created
(sixth event of the strategy trace) with an entrypoint that equals the
target's inspected entrypoint when the override list is empty and
equals the override list wholesale when it is non-empty, and likewise
for the command. -/
theorem createCopy_override_semantics (d : Docker) (dbg tgt copy : String)
    (ep cm : List String) (volId : String) (insp : Inspect)
    (h1 : d.containerCreate (toolVolumeContainerConfig dbg)
      (some (toolVolumeHostConfig dbg)) "" = .ok volId)
    (h2 : d.containerStart volId = .ok ())
    (h3 : d.containerInspect tgt = .ok insp) :
    ((createCopyContainer d dbg tgt copy ep cm).2).get? 5 =
        some (Event.create (copyConfig insp ep cm) (some (copyHostConfig dbg)) copy) ∧
      (ep = [] → (copyConfig insp ep cm).entrypoint = insp.config.entrypoint) ∧
      (ep ≠ [] → (copyConfig insp ep cm).entrypoint = ep) ∧
      (cm = [] → (copyConfig insp ep cm).cmd = insp.config.cmd) ∧
      (cm ≠ [] → (copyConfig insp ep cm).cmd = cm) := by
  refine ⟨?_, ?_, ?_, ?_, ?_⟩
  · simp only [createCopyContainer, h1, h2, h3]
    cases hc : d.containerCreate (copyConfig insp ep cm) (some (copyHostConfig dbg)) copy with
    | error e => simp [List.get?, hc]
    | ok copyId =>
      cases hs : d.containerStart copyId <;> simp [List.get?, hc, hs]
  · intro h; simp [copyConfig, h]
  · intro h; simp [copyConfig, List.length_pos.mpr h]
  · intro h; simp [copyConfig, h]
  · intro h; simp [copyConfig, List.length_pos.mpr h]

theorem createCopy_override_semantics_witness :
    ((createCopyContainer dHappy "busybox:1.28" "my-distroless" "my-distroless-copy"
        ["/.debugger/sleep"] ["365d"]).2).get? 5 =
        some (Event.create (copyConfig inspHappy ["/.debugger/sleep"] ["365d"])
          (some (copyHostConfig "busybox:1.28")) "my-distroless-copy") ∧
      (["/.debugger/sleep"] = ([] : List String) →
        (copyConfig inspHappy ["/.debugger/sleep"] ["365d"]).entrypoint =
          inspHappy.config.entrypoint) ∧
      (["/.debugger/sleep"] ≠ ([] : List String) →
        (copyConfig inspHappy ["/.debugger/sleep"] ["365d"]).entrypoint =
          ["/.debugger/sleep"]) ∧
      (["365d"] = ([] : List String) →
        (copyConfig inspHappy ["/.debugger/sleep"] ["365d"]).cmd = inspHappy.config.cmd) ∧
      (["365d"] ≠ ([] : List String) →
        (copyConfig inspHappy ["/.debugger/sleep"] ["365d"]).cmd = ["365d"]) :=
  createCopy_override_semantics dHappy "busybox:1.28" "my-distroless" "my-distroless-copy"
    ["/.debugger/sleep"] ["365d"] "c1" inspHappy rfl rfl rfl

/-- Claim C10: an override list consisting of empty strings counts as a
supplied override, because only the list's length is tested: with
`--entrypoint=""` and `--cmd=""` the copy container is created with
entrypoint `[""]` and command `[""]`, the target's original values
being fully discarded whatever they were. -/
theorem createCopy_empty_string_override (d : Docker) (dbg tgt copy : String)
    (volId : String) (insp : Inspect)
    (h1 : d.containerCreate (toolVolumeContainerConfig dbg)
      (some (toolVolumeHostConfig dbg)) "" = .ok volId)
    (h2 : d.containerStart volId = .ok ())
    (h3 : d.containerInspect tgt = .ok insp) :
    ((createCopyContainer d dbg tgt copy [""] [""]).2).get? 5 =
        some (Event.create (copyConfig insp [""] [""]) (some (copyHostConfig dbg)) copy) ∧
      (copyConfig insp [""] [""]).entrypoint = [""] ∧
      (copyConfig insp [""] [""]).cmd = [""] := by
  refine ⟨?_, by simp [copyConfig], by simp [copyConfig]⟩
  simp only [createCopyContainer, h1, h2, h3]
  cases hc : d.containerCreate (copyConfig insp [""] [""]) (some (copyHostConfig dbg)) copy with
  | error e => simp [List.get?, hc]
  | ok copyId =>
    cases hs : d.containerStart copyId <;> simp [List.get?, hc, hs]

theorem createCopy_empty_string_override_witness :
    ((createCopyContainer dHappy "busybox:1.28" "my-distroless" "my-distroless-copy"
        [""] [""]).2).get? 5 =
        some (Event.create (copyConfig inspHappy [""] [""])
          (some (copyHostConfig "busybox:1.28")) "my-distroless-copy") ∧
      (copyConfig inspHappy [""] [""]).entrypoint = [""] ∧
      (copyConfig inspHappy [""] [""]).cmd = [""] :=
  createCopy_empty_string_override dHappy "busybox:1.28" "my-distroless"
    "my-distroless-copy" "c1" inspHappy rfl rfl rfl

/-- Claim C5: once the target inspection and the debug-image pull have
succeeded, `RunE` runs the copy-container strategy if and only if the
supplied copy name is non-empty, and the live-mount strategy otherwise;
in either case the session is exactly the prologue, that strategy's own
outcome and trace, and the matching hint report. -/
theorem runE_branch_selection (d : Docker) (dbg tgt copy : String) (ep cm : List String)
    (insp : Inspect)
    (h1 : d.containerInspect tgt = .ok insp) (h2 : d.imagePull dbg = .ok ()) :
    (copy = "" → runE d dbg tgt copy ep cm =
      sessionWrap d dbg tgt (liveHint tgt) (addMountToTargetContainer d dbg tgt)) ∧
    (copy ≠ "" → runE d dbg tgt copy ep cm =
      sessionWrap d dbg tgt (copyHint copy) (createCopyContainer d dbg tgt copy ep cm)) := by
  constructor
  · intro hc
    subst hc
    simp only [runE, pullImage, h1, h2]
    rcases hs : addMountToTargetContainer d dbg tgt with ⟨o, evs⟩
    cases o <;> simp [sessionWrap, pullImage]
  · intro hc
    simp only [runE, pullImage, h1, h2, if_neg hc]
    rcases hs : createCopyContainer d dbg tgt copy ep cm with ⟨o, evs⟩
    cases o <;> simp [sessionWrap, pullImage]

theorem runE_branch_selection_witness :
    runE dHappy "busybox:1.28" "my-distroless" "" [] [] =
      sessionWrap dHappy "busybox:1.28" "my-distroless" (liveHint "my-distroless")
        (addMountToTargetContainer dHappy "busybox:1.28" "my-distroless") :=
  (runE_branch_selection dHappy "busybox:1.28" "my-distroless" "" [] [] inspHappy
    rfl rfl).1 rfl

/-- Claim C8: when a session succeeds, the exec hint it reports is
`docker exec -it <target> /bin/sh` when the live-mount path ran (empty
copy name) and the `/.debugger`-PATH-augmented shell in the requested
copy container when the copy path ran. -/
theorem runE_exec_hint (d : Docker) (dbg tgt copy : String) (ep cm : List String)
    (hint : String) (h : (runE d dbg tgt copy ep cm).1 = .ok hint) :
    hint = if copy = "" then liveHint tgt else copyHint copy := by
  simp only [runE, pullImage] at h
  cases h1 : d.containerInspect tgt with
  | error e => simp [h1] at h
  | ok insp =>
    cases h2 : d.imagePull dbg with
    | error e => simp [h1, h2] at h
    | ok u =>
      by_cases hc : copy = ""
      · subst hc
        simp only [h1, h2, if_pos rfl] at h
        rcases hs : addMountToTargetContainer d dbg tgt with ⟨o, evs⟩
        cases o <;> simp [hs] at h
        simp [h]
      · simp only [h1, h2, if_neg hc] at h
        rcases hs : createCopyContainer d dbg tgt copy ep cm with ⟨o, evs⟩
        cases o <;> simp [hs] at h
        simp [hc, h]

theorem runE_exec_hint_witness :
    liveHint "my-distroless" =
      if "" = "" then liveHint "my-distroless" else copyHint "" :=
  runE_exec_hint dHappy "busybox:1.28" "my-distroless" "" [] []
    (liveHint "my-distroless") rfl

/-- Claim C9: once the toolkit container has been created and started
and the helper image pulled, the bridging container is created (fourth
event of the strategy trace) from the helper image with auto-remove,
privileged mode, the host pid namespace, a bind mount of the Docker
administrative socket, and exactly the four positional arguments
toolkit id, `/bin`, target id, `/bin`, in that order. -/
theorem addMount_bridge_creation (d : Docker) (dbg tgt tid : String)
    (h1 : d.containerCreate (toolkitConfig dbg) none "" = .ok tid)
    (h2 : d.containerStart tid = .ok ())
    (h3 : d.imagePull addMountImage = .ok ()) :
    ((addMountToTargetContainer d dbg tgt).2).get? 3 =
      some (Event.create
        { image := addMountImage, cmd := [tid, "/bin", tgt, "/bin"] }
        (some { autoRemove := true, privileged := true, pidMode := "host",
                binds := ["/var/run/docker.sock:/var/run/docker.sock"] }) "") := by
  simp only [addMountToTargetContainer, pullImage, h1, h2, h3]
  cases h4 : d.containerCreate (bridgeConfig tid tgt) (some bridgeHostConfig) "" with
  | error e => simp [List.get?, h4, bridgeConfig, bridgeHostConfig]
  | ok bid =>
    cases h5 : d.containerStart bid with
    | error e => simp [List.get?, h4, h5, bridgeConfig, bridgeHostConfig]
    | ok u =>
      cases h6 : d.containerWait bid "removed" with
      | fromErrCh oe =>
        cases oe with
        | none =>
          cases h7 : d.containerRemove tid true <;>
            simp [List.get?, h4, h5, h6, h7, bridgeConfig, bridgeHostConfig]
        | some e => simp [List.get?, h4, h5, h6, bridgeConfig, bridgeHostConfig]
      | fromStatusCh =>
        cases h7 : d.containerRemove tid true <;>
          simp [List.get?, h4, h5, h6, h7, bridgeConfig, bridgeHostConfig]

theorem addMount_bridge_creation_witness :
    ((addMountToTargetContainer dHappy "busybox:1.28" "my-distroless").2).get? 3 =
      some (Event.create
        { image := addMountImage, cmd := ["c1", "/bin", "my-distroless", "/bin"] }
        (some { autoRemove := true, privileged := true, pidMode := "host",
                binds := ["/var/run/docker.sock:/var/run/docker.sock"] }) "") :=
  addMount_bridge_creation dHappy "busybox:1.28" "my-distroless" "c1" rfl rfl rfl

/-- Claim C1, counterexample: in the environment `dPullFail` the
toolkit container `c1` is created and started successfully, the helper
pull then fails, and the strategy returns without force-removing the
toolkit container even once — refuting the claim that the removal
happens regardless of whether the bridge operation failed. -/
theorem addMount_cleanup_counterexample :
    dPullFail.containerCreate (toolkitConfig "busybox:1.28") none "" = .ok "c1" ∧
      dPullFail.containerStart "c1" = .ok () ∧
      removeCount "c1"
        ((addMountToTargetContainer dPullFail "busybox:1.28" "my-distroless").2) ≠ 1 := by
  refine ⟨rfl, rfl, ?_⟩
  decide

/-- Claim C1 (amended): in the live-mount strategy, once the toolkit
container has started, it is force-removed exactly once when the whole
bridge operation succeeds (helper pull, bridge create, bridge start all
succeed and the wait channel surfaces no error); when the helper pull,
the bridge create or the bridge start fails, or the wait channel
surfaces an error (which panics), the strategy ends without removing
the toolkit container at all. -/
theorem addMount_toolkit_removal (d : Docker) (dbg tgt tid : String)
    (h1 : d.containerCreate (toolkitConfig dbg) none "" = .ok tid)
    (h2 : d.containerStart tid = .ok ()) :
    ((∃ e, d.imagePull addMountImage = .error e) →
        removeCount tid ((addMountToTargetContainer d dbg tgt).2) = 0) ∧
      (∀ e, d.imagePull addMountImage = .ok () →
        d.containerCreate (bridgeConfig tid tgt) (some bridgeHostConfig) "" = .error e →
        removeCount tid ((addMountToTargetContainer d dbg tgt).2) = 0) ∧
      (∀ bid e, d.imagePull addMountImage = .ok () →
        d.containerCreate (bridgeConfig tid tgt) (some bridgeHostConfig) "" = .ok bid →
        d.containerStart bid = .error e →
        removeCount tid ((addMountToTargetContainer d dbg tgt).2) = 0) ∧
      (∀ bid e, d.imagePull addMountImage = .ok () →
        d.containerCreate (bridgeConfig tid tgt) (some bridgeHostConfig) "" = .ok bid →
        d.containerStart bid = .ok () →
        d.containerWait bid "removed" = .fromErrCh (some e) →
        removeCount tid ((addMountToTargetContainer d dbg tgt).2) = 0) ∧
      (∀ bid, d.imagePull addMountImage = .ok () →
        d.containerCreate (bridgeConfig tid tgt) (some bridgeHostConfig) "" = .ok bid →
        d.containerStart bid = .ok () →
        (∀ e, d.containerWait bid "removed" ≠ .fromErrCh (some e)) →
        removeCount tid ((addMountToTargetContainer d dbg tgt).2) = 1) := by
  refine ⟨?_, ?_, ?_, ?_, ?_⟩
  · rintro ⟨e, h3⟩
    simp [addMountToTargetContainer, pullImage, h1, h2, h3, removeCount]
  · intro e h3 h4
    simp [addMountToTargetContainer, pullImage, h1, h2, h3, h4, removeCount]
  · intro bid e h3 h4 h5
    simp [addMountToTargetContainer, pullImage, h1, h2, h3, h4, h5, removeCount]
  · intro bid e h3 h4 h5 h6
    simp [addMountToTargetContainer, pullImage, h1, h2, h3, h4, h5, h6, removeCount]
  · intro bid h3 h4 h5 h6
    simp only [addMountToTargetContainer, pullImage, h1, h2, h3, h4, h5]
    cases h7 : d.containerWait bid "removed" with
    | fromErrCh e =>
      cases e with
      | none =>
        cases h8 : d.containerRemove tid true <;> simp [removeCount]
      | some e => exact absurd h7 (h6 e)
    | fromStatusCh =>
      cases h8 : d.containerRemove tid true <;> simp [removeCount]

theorem addMount_toolkit_removal_witness :
    removeCount "c1"
      ((addMountToTargetContainer dHappy "busybox:1.28" "my-distroless").2) = 1 :=
  (addMount_toolkit_removal dHappy "busybox:1.28" "my-distroless" "c1" rfl
    rfl).2.2.2.2 "c1" rfl rfl rfl (fun _ h => WaitMsg.noConfusion h)

end DebugCtr
